import Mathlib

/-!
Verification of the f1-race-report data-shaping pipeline (`src/app.py`).

The pipeline is shallowly embedded: the pandas results table is a list of
named columns of cells, the external fastf1 adapter is a record of
(possibly failing) functions, Python string / truthiness semantics are
modelled explicitly, and the three public operations
(`create_dashboard`, `get_race_results`, `index`) are translated
branch-for-branch from `src/app.py`.
-/

/-! ### Timedelta rendering (pandas `str(Timedelta)` and `split('days ')`) -/

/-- A non-negative pandas `Timedelta` as it appears in a results table:
`days` whole days plus a clock-part string (e.g. `"01:33:56.789000"`).
Its Python `str` is `"<days> days <clock>"`. -/
structure Timedelta where
  days : Nat
  clock : String
deriving DecidableEq, Repr

/-- The character for a decimal digit `d < 10`. -/
def digitChar (d : Nat) : Char := Char.ofNat (48 + d)

/-- Decimal digits of a natural number, most significant first
(accumulator form, fuelled so that it is structurally recursive; the
fuel never runs out when it starts at least as big as the number). -/
def natDigitsF : Nat → Nat → List Char → List Char
  | 0, n, acc => digitChar n :: acc
  | fuel + 1, n, acc =>
    if n < 10 then digitChar n :: acc
    else natDigitsF fuel (n / 10) (digitChar (n % 10) :: acc)

/-- Decimal digits of a natural number, most significant first. -/
def natDigits (n : Nat) : List Char := natDigitsF n n []

/-- Python `str()` of a pandas Timedelta: `"<days> days <clock>"`. -/
def tdRepr (t : Timedelta) : String :=
  String.mk (natDigits t.days) ++ " days " ++ t.clock

/-- Python `s.split(sep)` on character lists: non-overlapping,
left-to-right, keeping empty pieces (the behaviour of `str.split` with an
explicit non-empty separator). -/
def pySplitF (sep : List Char) : Nat → List Char → List (List Char)
  | _, [] => [[]]
  | 0, s => [s]
  | fuel + 1, c :: rest =>
    if sep.isPrefixOf (c :: rest) ∧ sep ≠ [] then
      [] :: pySplitF sep fuel (rest.drop (sep.length - 1))
    else
      match pySplitF sep fuel rest with
      | [] => [[c]]
      | p :: ps => (c :: p) :: ps

/-- Python `s.split(sep)`: the fuel `s.length` always suffices since
every recursive step shortens the list. -/
def pySplit (sep s : List Char) : List (List Char) :=
  pySplitF sep s.length s

/-- Python `lst[-1]` on a list that is never empty (default for `[]`). -/
def lastD (d : List Char) : List (List Char) → List Char
  | [] => d
  | [x] => x
  | _ :: x :: xs => lastD d (x :: xs)

/-- `str(x).split('days ')[-1]` from `src/app.py` line 196. -/
def stripDays (s : String) : String :=
  String.mk (lastD [] (pySplit "days ".toList s.toList))

/-! ### Cells and the results table -/

/-- One cell of the adapter's results table.  `null` is pandas
`NaN`/`NaT`; `flo` is a float64 cell holding an integral value (finishing
positions are whole-valued floats). -/
inductive Cell where
  | null
  | str (v : String)
  | int (v : Int)
  | flo (v : Int)
  | dur (v : Timedelta)
deriving DecidableEq, Repr

/-- Python `str()` of a cell value. -/
def pyStrCell : Cell → String
  | .null => "NaT"
  | .str v => v
  | .int v => toString v
  | .flo v => toString v ++ ".0"
  | .dur t => tdRepr t

/-- The lambda of `src/app.py` line 196:
`lambda x: str(x).split('days ')[-1] if pd.notna(x) else 'N/A'`. -/
def timeApplyCell (x : Cell) : Cell :=
  match x with
  | .null => .str "N/A"
  | c => .str (stripDays (pyStrCell c))

/-- `Series.astype(int)` on one cell: succeeds on numeric cells,
truncating the integral float; raises on `NaN`/non-numeric. -/
def astypeIntCell : Cell → Except String Cell
  | .int v => .ok (.int v)
  | .flo v => .ok (.int v)
  | .null => .error "Cannot convert non-finite values (NA or inf) to integer"
  | .str _ => .error "invalid literal for int()"
  | .dur _ => .error "cannot astype a timedelta"

/-- `Series.astype(int)` on a whole column. -/
def astypeIntCol (l : List Cell) : Except String (List Cell) :=
  l.mapM astypeIntCell

/-- The value `astype(int)` produces for a numeric cell. -/
def coerceVal : Cell → Cell
  | .int v => .int v
  | .flo v => .int v
  | c => c

/-- A numeric (int64 or float64) cell, on which `astype(int)` succeeds. -/
def isNumCell : Cell → Bool
  | .int _ => true
  | .flo _ => true
  | _ => false

/-- A pandas DataFrame as a list of named columns. -/
structure DFrame where
  cols : List (String × List Cell)
deriving DecidableEq, Repr

/-- `df.columns`. -/
def DFrame.columns (df : DFrame) : List String := df.cols.map Prod.fst

/-- `df[name]` for a column: `KeyError` (whose `str` is the quoted key)
when the column is absent. -/
def DFrame.getCol (df : DFrame) (name : String) : Except String (List Cell) :=
  match df.cols.find? (fun c => c.1 == name) with
  | some c => .ok c.2
  | none => .error ("\x27" ++ name ++ "\x27")

/-- `df[name]` when the column is known to exist (default `[]`). -/
def DFrame.getColD (df : DFrame) (name : String) : List Cell :=
  match df.cols.find? (fun c => c.1 == name) with
  | some c => c.2
  | none => []

/-- `df[name] = vals`: replace the column when present, append otherwise. -/
def DFrame.setCol (df : DFrame) (name : String) (vals : List Cell) : DFrame :=
  if (df.cols.find? (fun c => c.1 == name)).isSome then
    ⟨df.cols.map (fun c => if c.1 == name then (name, vals) else c)⟩
  else
    ⟨df.cols ++ [(name, vals)]⟩

/-- `df[[names]]`: column selection, failing on an absent column. -/
def DFrame.select (df : DFrame) (names : List String) : Except String DFrame :=
  (names.mapM (fun n => (df.getCol n).map (fun vs => (n, vs)))).map DFrame.mk

/-- Apply a `rename(columns=...)` mapping to one column name. -/
def renameName (m : List (String × String)) (n : String) : String :=
  match m.find? (fun p => p.1 == n) with
  | some p => p.2
  | none => n

/-- `df.rename(columns=m)`. -/
def DFrame.rename (df : DFrame) (m : List (String × String)) : DFrame :=
  ⟨df.cols.map (fun c => (renameName m c.1, c.2))⟩

/-- Number of rows (length of the first column, `0` for no columns). -/
def DFrame.nRows (df : DFrame) : Nat :=
  ((df.cols.head?.map (fun c => c.2.length))).getD 0

/-- One output row: a record keyed by column name. -/
abbrev Row := List (String × Cell)

/-- `df.to_dict('records')`: one association list per row, keys in
column order. -/
def toRecords (df : DFrame) : List Row :=
  (List.range df.nRows).map
    (fun i => df.cols.map (fun c => (c.1, c.2.getD i Cell.null)))

/-- Look a field up in an output row. -/
def rowGet (row : Row) (k : String) : Option Cell :=
  (row.find? (fun p => p.1 == k)).map (fun p => p.2)

/-- Substring test on character lists. -/
def hasSubList : List Char → List Char → Bool
  | [], pat => pat.isEmpty
  | c :: rest, pat => pat.isPrefixOf (c :: rest) || hasSubList rest pat

/-- Substring test on strings (Python `pat in s`). -/
def containsSub (s pat : String) : Bool := hasSubList s.toList pat.toList

/-! ### Sessions, the external fastf1 adapter, and the two builders -/

/-- One telemetry sample of a lap (distance-keyed). -/
structure TelemetrySample where
  distance : Int
  speed : Int
deriving DecidableEq, Repr

/-- One lap record; `lapTime` is null for an incomplete lap, and
`telemetry` is what `get_telemetry()` returns for this lap. -/
structure Lap where
  driver : String
  lapTime : Option Nat
  telemetry : List TelemetrySample
deriving DecidableEq, Repr

/-- A loaded session: its lap records and its results table. -/
structure SessionData where
  laps : List Lap
  results : DFrame
deriving DecidableEq, Repr

/-- The external fastf1 data adapter.  Each operation may raise (modelled
as `Except.error` carrying the exception's message); `render` stands for
the matplotlib figure rasterisation, which is out of scope. -/
structure Adapter where
  schedule : Int → Except String (List String)
  loadLight : Int → String → Except String SessionData
  loadFull : Int → String → Except String SessionData
  render : SessionData → String → Lap → String

/-- One step of the fastest-lap fold: keep the incumbent unless the new
lap has a recorded time that beats it. -/
def fastestStep (best : Option Lap) (l : Lap) : Option Lap :=
  match l.lapTime with
  | none => best
  | some t =>
    match best with
    | none => some l
    | some b =>
      match b.lapTime with
      | none => some l
      | some tb => if t < tb then some l else best

/-- `Laps.pick_fastest()`: the first lap attaining the minimum non-null
lap time, `none` when no lap has a recorded time. -/
def pick_fastest (laps : List Lap) : Option Lap :=
  laps.foldl fastestStep none

/-- `create_dashboard(year, race, driver)` from `src/app.py` lines
27-177: load the session, validate driver laps / fastest lap /
telemetry, and on success return the base64 data URI of the rendered
figure.  Any adapter exception is caught and wrapped. -/
def create_dashboard (ad : Adapter) (year : Int) (race : String)
    (driver : String) : Option String × Option String :=
  match ad.loadFull year race with
  | .error e =>
    (none, some ("An error occurred: " ++ e ++
      ". The driver may not have data for this session."))
  | .ok session =>
    let driver_laps := session.laps.filter (fun l => l.driver == driver)
    if driver_laps.length == 0 then
      (none, some ("Error: No data found for driver " ++ driver ++ "."))
    else
      match pick_fastest driver_laps with
      | none =>
        (none, some ("Error: No completed lap data found for " ++ driver ++
          " (e.g., DNF on Lap 1)."))
      | some fastest_lap =>
        if fastest_lap.telemetry.isEmpty then
          (none, some ("Error: No telemetry data found for " ++ driver ++
            "\x27s fastest lap."))
        else
          (some ("data:image/png;base64," ++ ad.render session driver fastest_lap),
           none)

/-- The eight required result fields (`final_cols`, `src/app.py` 203). -/
def final_cols : List String :=
  ["Position", "FullName", "Abbreviation", "TeamName", "Laps", "Time",
   "Status", "Points"]

/-- The presentation rename mapping (`src/app.py` 213-217). -/
def renameMap : List (String × String) :=
  [("Abbreviation", "Driver"), ("TeamName", "Team"), ("FullName", "FullName")]

/-- The body of `get_race_results` after the session load (`src/app.py`
lines 190-222): transform the Time column when present, coerce Position
to int, check the required columns, select, rename, and emit records. -/
def getRaceResultsCore (results0 : DFrame) : Except String (List Row) :=
  let results1 :=
    if "Time" ∈ results0.columns then
      results0.setCol "Time" ((results0.getColD "Time").map timeApplyCell)
    else results0
  match results1.getCol "Position" with
  | .error e => .error e
  | .ok posRaw =>
    match astypeIntCol posRaw with
    | .error e => .error e
    | .ok posInt =>
      let results2 := results1.setCol "Position" posInt
      let missing := final_cols.filter (fun c => !(results2.columns.contains c))
      if missing = [] then
        match results2.select final_cols with
        | .error e => .error e
        | .ok data => .ok (toRecords (data.rename renameMap))
      else
        .error ("Data is missing columns: " ++ String.intercalate ", " missing)

/-- `get_race_results(year, race)` from `src/app.py` lines 180-227:
light session load, then the table pipeline; any exception is caught and
wrapped into the error string. -/
def get_race_results (ad : Adapter) (year : Int) (race : String) :
    Option (List Row) × Option String :=
  match ad.loadLight year race with
  | .error e =>
    (none, some ("An error occurred: " ++ e ++ ". Could not load results."))
  | .ok sess =>
    match getRaceResultsCore sess.results with
    | .ok rows => (some rows, none)
    | .error e =>
      (none, some ("An error occurred: " ++ e ++ ". Could not load results."))

/-! ### The selection resolver (`index`, `src/app.py` lines 231-283) -/

/-- `pandas.Series.unique()`: first occurrences, in order (accumulator of
already-seen values). -/
def uniqueAux (seen : List String) : List String → List String
  | [] => []
  | x :: xs =>
    if x ∈ seen then uniqueAux seen xs else x :: uniqueAux (x :: seen) xs

/-- `pandas.Series.unique().tolist()`. -/
def uniqueList (l : List String) : List String := uniqueAux [] l

/-- Insert into a `≤`-sorted list of strings (comparing the character
lists, which is the same order as `≤` on `String`). -/
def insSorted (x : String) : List String → List String
  | [] => [x]
  | y :: ys =>
    if x.toList ≤ y.toList then x :: y :: ys else y :: insSorted x ys

/-- Python `sorted` on a list of strings (insertion sort). -/
def sortStr : List String → List String
  | [] => []
  | x :: xs => insSorted x (sortStr xs)

/-- `list(range(now.year, 2017, -1))` (`src/app.py` line 239). -/
def yearsList (currentYear : Int) : List Int :=
  (List.range (currentYear - 2017).toNat).map
    (fun (i : Nat) => currentYear - (i : Int))

/-- The route-level wrapper for an uncaught adapter exception
(`src/app.py` line 271). -/
def routeErr (e : String) : String :=
  "An error occurred: " ++ e ++ ". Please check your selections."

/-- The fields of the template context that the resolution stages fill
in (everything except the year list and the echoed selections). -/
structure StageOut where
  races : List String
  drivers : List String
  plot_data : Option String
  results_data : Option (List Row)
  error : Option String
deriving DecidableEq

/-- The resolution stages of the route body for a truthy year
(`src/app.py` lines 248-271): schedule, driver list, then dispatch to
`get_race_results` (driver `"ALL"`) or `create_dashboard`. -/
def indexCore (ad : Adapter) (y : Int) (qrace qdriver : Option String) :
    StageOut :=
  match ad.schedule y with
  | .error e => ⟨[], [], none, none, some (routeErr e)⟩
  | .ok races =>
    match qrace with
    | none => ⟨races, [], none, none, none⟩
    | some r =>
      if r = "" then ⟨races, [], none, none, none⟩
      else
        match ad.loadLight y r with
        | .error e => ⟨races, [], none, none, some (routeErr e)⟩
        | .ok sess =>
          let drivers := sortStr (uniqueList (sess.laps.map Lap.driver))
          match qdriver with
          | none => ⟨races, drivers, none, none, none⟩
          | some d =>
            if d = "" then ⟨races, drivers, none, none, none⟩
            else if d = "ALL" then
              let rr := get_race_results ad y r
              ⟨races, drivers, none, rr.1, rr.2⟩
            else
              let pr := create_dashboard ad y r d
              ⟨races, drivers, pr.1, none, pr.2⟩

/-- The record handed to the template (`src/app.py` lines 274-283). -/
structure ViewModel where
  years : List Int
  races : List String
  drivers : List String
  selected_year : Option Int
  selected_race : Option String
  selected_driver : Option String
  plot_data : Option String
  results_data : Option (List Row)
  error : Option String
deriving DecidableEq

/-- The `index` route (`src/app.py` lines 231-283).  A year of `none`
(absent or unparseable) or `0` is falsy in Python, so resolution stops
before any stage runs. -/
def index (ad : Adapter) (currentYear : Int) (qyear : Option Int)
    (qrace qdriver : Option String) : ViewModel :=
  let st :=
    match qyear with
    | none => (⟨[], [], none, none, none⟩ : StageOut)
    | some y =>
      if y = 0 then (⟨[], [], none, none, none⟩ : StageOut)
      else indexCore ad y qrace qdriver
  ⟨yearsList currentYear, st.races, st.drivers, qyear, qrace, qdriver,
   st.plot_data, st.results_data, st.error⟩

/-- Parse a run of decimal digits (accumulator form). -/
def pyDigits : List Char → Nat → Option Nat
  | [], acc => some acc
  | c :: cs, acc =>
    if 48 ≤ c.toNat ∧ c.toNat ≤ 57 then
      pyDigits cs (acc * 10 + (c.toNat - 48))
    else none

/-- Python `int(s)`: an optional minus sign followed by at least one
decimal digit; anything else raises `ValueError` (modelled as `none`). -/
def pyToInt (s : String) : Option Int :=
  match s.toList with
  | [] => none
  | ['-'] => none
  | '-' :: c :: cs => (pyDigits (c :: cs) 0).map (fun n => -(n : Int))
  | l => (pyDigits l 0).map (fun n => (n : Int))

/-- Flask's `request.args.get('year', type=int)`: apply `int()` to the
raw query value, yielding `None` when the parameter is absent or the
conversion raises. -/
def parseYearParam (raw : Option String) : Option Int :=
  raw.bind pyToInt

/-- The `index` route taking the raw (string) `year` query parameter. -/
def indexRaw (ad : Adapter) (currentYear : Int) (rawYear : Option String)
    (qrace qdriver : Option String) : ViewModel :=
  index ad currentYear (parseYearParam rawYear) qrace qdriver

/-- The row that `get_race_results` produces for record `i` of a results
table that passes all checks. -/
def expectedRow (df : DFrame) (i : Nat) : Row :=
  [("Position", coerceVal ((df.getColD "Position").getD i .null)),
   ("FullName", (df.getColD "FullName").getD i .null),
   ("Driver", (df.getColD "Abbreviation").getD i .null),
   ("Team", (df.getColD "TeamName").getD i .null),
   ("Laps", (df.getColD "Laps").getD i .null),
   ("Time", timeApplyCell ((df.getColD "Time").getD i .null)),
   ("Status", (df.getColD "Status").getD i .null),
   ("Points", (df.getColD "Points").getD i .null)]

/-! ### Concrete fixtures for evaluating the model -/

/-- A complete two-driver results table (with one extra column, as the
real adapter returns more fields than the app keeps). -/
def dfFull : DFrame :=
  ⟨[("Position", [.flo 1, .flo 2]),
    ("FullName", [.str "Max Verstappen", .str "Sergio Perez"]),
    ("Abbreviation", [.str "VER", .str "PER"]),
    ("TeamName", [.str "Red Bull Racing", .str "Red Bull Racing"]),
    ("Laps", [.int 57, .int 57]),
    ("Time", [.dur ⟨0, "01:31:44.742000"⟩, .null]),
    ("Status", [.str "Finished", .str "Finished"]),
    ("Points", [.int 25, .int 18]),
    ("GridPosition", [.flo 1, .flo 2])]⟩

/-- A results table missing both `Position` and `Time`. -/
def dfC1 : DFrame :=
  ⟨[("FullName", [.str "Max Verstappen"]),
    ("Abbreviation", [.str "VER"]),
    ("TeamName", [.str "Red Bull Racing"]),
    ("Laps", [.int 57]),
    ("Status", [.str "Finished"]),
    ("Points", [.int 25])]⟩

/-- A results table missing only `Laps`. -/
def dfC1b : DFrame :=
  ⟨[("Position", [.flo 1]),
    ("FullName", [.str "Max Verstappen"]),
    ("Abbreviation", [.str "VER"]),
    ("TeamName", [.str "Red Bull Racing"]),
    ("Time", [.null]),
    ("Status", [.str "Finished"]),
    ("Points", [.int 25])]⟩

/-- An adapter whose sessions carry the complete table `dfFull`. -/
def adFull : Adapter :=
  ⟨fun _ => .ok ["Bahrain Grand Prix"],
   fun _ _ => .ok ⟨[], dfFull⟩,
   fun _ _ => .ok ⟨[], dfFull⟩,
   fun _ _ _ => "img"⟩

/-- An adapter whose sessions carry `dfC1`. -/
def adC1 : Adapter :=
  ⟨fun _ => .ok [],
   fun _ _ => .ok ⟨[], dfC1⟩,
   fun _ _ => .ok ⟨[], dfC1⟩,
   fun _ _ _ => ""⟩

/-- An adapter whose sessions carry `dfC1b`. -/
def adC1b : Adapter :=
  ⟨fun _ => .ok [],
   fun _ _ => .ok ⟨[], dfC1b⟩,
   fun _ _ => .ok ⟨[], dfC1b⟩,
   fun _ _ _ => ""⟩

/-- An adapter exercising the three dashboard validation failures,
keyed by the race name: no laps, no completed lap, no telemetry. -/
def adC2 : Adapter :=
  ⟨fun _ => .ok [],
   fun _ _ => .ok ⟨[], ⟨[]⟩⟩,
   fun _ race =>
     if race = "A" then .ok ⟨[], ⟨[]⟩⟩
     else if race = "B" then .ok ⟨[⟨"VER", none, []⟩], ⟨[]⟩⟩
     else .ok ⟨[⟨"VER", some 91000, []⟩], ⟨[]⟩⟩,
   fun _ _ _ => "img"⟩

/-- An adapter with duplicate, unsorted lap drivers. -/
def adC7 : Adapter :=
  ⟨fun _ => .ok [],
   fun _ _ => .ok ⟨[⟨"VER", some 90000, []⟩, ⟨"HAM", some 91000, []⟩,
     ⟨"VER", some 92000, []⟩], ⟨[]⟩⟩,
   fun _ _ => .ok ⟨[], ⟨[]⟩⟩,
   fun _ _ _ => "img"⟩

/-- An adapter that fails at a stage selected by the year. -/
def adFail : Adapter :=
  ⟨fun y => if y = 1 then .error "boom" else .ok ["Bahrain Grand Prix"],
   fun y _ => if y = 2 then .error "net"
     else .ok ⟨[⟨"VER", some 90000, []⟩], dfFull⟩,
   fun _ _ => .error "cache",
   fun _ _ _ => "img"⟩

/-- An adapter with empty responses everywhere. -/
def trivAdapter : Adapter :=
  ⟨fun _ => .ok [],
   fun _ _ => .ok ⟨[], ⟨[]⟩⟩,
   fun _ _ => .ok ⟨[], ⟨[]⟩⟩,
   fun _ _ _ => ""⟩

/-- The absent required fields of a results table (the app computes
this list on the transformed table; column names are unchanged by the
transforms). -/
def missingColsOf (df : DFrame) : List String :=
  final_cols.filter (fun c => !(df.columns.contains c))

example : stripDays "0 days 01:33:56.789000" = "01:33:56.789000" := by decide
example : stripDays (tdRepr ⟨0, "01:33:56.789000"⟩) = "01:33:56.789000" := by decide

/-! ### Lemmas: decimal digits contain no letter, and `split('days ')` -/

theorem digitChar_ne_d (m : Nat) (h : m < 10) : digitChar m ≠ 'd' := by
  interval_cases m <;> decide

theorem natDigitsF_ne_d :
    ∀ fuel n acc, n ≤ fuel → (∀ c ∈ acc, c ≠ 'd') →
      ∀ c ∈ natDigitsF fuel n acc, c ≠ 'd' := by
  intro fuel
  induction fuel with
  | zero =>
    intro n acc hn hacc c hc
    have hn0 : n = 0 := by omega
    subst hn0
    simp only [natDigitsF, List.mem_cons] at hc
    rcases hc with h | h
    · subst h; decide
    · exact hacc c h
  | succ fuel ih =>
    intro n acc hn hacc c hc
    simp only [natDigitsF] at hc
    by_cases h10 : n < 10
    · rw [if_pos h10] at hc
      rcases List.mem_cons.mp hc with h | h
      · subst h; exact digitChar_ne_d n h10
      · exact hacc c h
    · rw [if_neg h10] at hc
      refine ih (n / 10) _ (by omega) ?_ c hc
      intro c' hc'
      rcases List.mem_cons.mp hc' with h | h
      · subst h; exact digitChar_ne_d _ (Nat.mod_lt _ (by omega))
      · exact hacc c' h

theorem natDigits_ne_d (n : Nat) : ∀ c ∈ natDigits n, c ≠ 'd' :=
  natDigitsF_ne_d n n [] le_rfl (by simp)

theorem pySplitF_not_mem (hh : Char) (tt : List Char) :
    ∀ fuel s, s.length ≤ fuel → hh ∉ s →
      pySplitF (hh :: tt) fuel s = [s] := by
  intro fuel
  induction fuel with
  | zero =>
    intro s hlen _
    cases s with
    | nil => rfl
    | cons c rest => simp at hlen
  | succ fuel ih =>
    intro s hlen hmem
    cases s with
    | nil => rfl
    | cons c rest =>
      have hc : hh ≠ c := fun h => hmem (h ▸ List.mem_cons_self c rest)
      simp only [pySplitF]
      rw [if_neg]
      · rw [ih rest (by simp only [List.length_cons] at hlen; omega)
          (fun h => hmem (List.mem_cons_of_mem _ h))]
      · intro hand
        exact hc (List.cons_prefix_cons.mp
          (List.isPrefixOf_iff_prefix.mp hand.1)).1

theorem pySplitF_sandwich (hh : Char) (tt b : List Char) (hb : hh ∉ b) :
    ∀ a fuel, (a ++ ((hh :: tt) ++ b)).length ≤ fuel → hh ∉ a →
      pySplitF (hh :: tt) fuel (a ++ ((hh :: tt) ++ b)) = [a, b] := by
  intro a
  induction a with
  | nil =>
    intro fuel hlen _
    simp only [List.nil_append] at hlen ⊢
    obtain ⟨fuel', rfl⟩ : ∃ f, fuel = f + 1 := by
      cases fuel with
      | zero => simp [List.length_append] at hlen
      | succ f => exact ⟨f, rfl⟩
    show pySplitF (hh :: tt) (fuel' + 1) (hh :: (tt ++ b)) = [[], b]
    simp only [pySplitF]
    rw [if_pos]
    · have hdrop : (tt ++ b).drop ((hh :: tt).length - 1) = b := by
        simp only [List.length_cons, Nat.add_sub_cancel]
        exact List.drop_left tt b
      rw [hdrop, pySplitF_not_mem hh tt fuel' b (by
        simp only [List.length_cons, List.length_append] at hlen; omega) hb]
    · exact ⟨List.isPrefixOf_iff_prefix.mpr
        (by simp [List.prefix_append]), by simp⟩
  | cons c a' ih =>
    intro fuel hlen hmem
    have hc : hh ≠ c := fun h => hmem (h ▸ List.mem_cons_self c a')
    obtain ⟨fuel', rfl⟩ : ∃ f, fuel = f + 1 := by
      cases fuel with
      | zero => simp [List.length_append] at hlen
      | succ f => exact ⟨f, rfl⟩
    show pySplitF (hh :: tt) (fuel' + 1) (c :: (a' ++ ((hh :: tt) ++ b))) = _
    simp only [pySplitF]
    rw [if_neg]
    · rw [ih fuel' (by simp only [List.length_cons, List.length_append] at hlen ⊢; omega)
        (fun h => hmem (List.mem_cons_of_mem _ h))]
    · intro hand
      exact hc (List.cons_prefix_cons.mp
        (List.isPrefixOf_iff_prefix.mp hand.1)).1

theorem pySplit_sandwich (hh : Char) (tt a b : List Char)
    (ha : hh ∉ a) (hb : hh ∉ b) :
    pySplit (hh :: tt) (a ++ ((hh :: tt) ++ b)) = [a, b] :=
  pySplitF_sandwich hh tt b hb a _ le_rfl ha

theorem stripDays_tdRepr (t : Timedelta) (h : 'd' ∉ t.clock.data) :
    stripDays (tdRepr t) = t.clock := by
  have hdata : (tdRepr t).toList =
      (natDigits t.days ++ [' ']) ++ ("days ".toList ++ t.clock.data) := by
    show (tdRepr t).data = _
    simp only [tdRepr, String.data_append]
    simp [String.toList, List.append_assoc]
  have ha : 'd' ∉ natDigits t.days ++ [' '] := by
    intro hmem
    rcases List.mem_append.mp hmem with h1 | h1
    · exact natDigits_ne_d t.days 'd' h1 rfl
    · simp at h1
  unfold stripDays
  rw [hdata]
  have : pySplit "days ".toList
      ((natDigits t.days ++ [' ']) ++ ("days ".toList ++ t.clock.data)) =
      [natDigits t.days ++ [' '], t.clock.data] :=
    pySplit_sandwich 'd' "ays ".toList _ _ ha h
  rw [this]
  rfl

theorem timeApplyCell_dur (t : Timedelta) (h : 'd' ∉ t.clock.data) :
    timeApplyCell (.dur t) = .str t.clock := by
  show Cell.str (stripDays (pyStrCell (.dur t))) = _
  rw [show pyStrCell (.dur t) = tdRepr t from rfl, stripDays_tdRepr t h]

/-! ### Lemmas: DataFrame column operations -/

theorem mem_columns_iff (df : DFrame) (name : String) :
    name ∈ df.columns ↔ (df.cols.find? (fun c => c.1 == name)).isSome := by
  rw [List.find?_isSome]
  simp [DFrame.columns, List.mem_map, beq_iff_eq]

theorem getCol_of_mem (df : DFrame) (name : String) (h : name ∈ df.columns) :
    df.getCol name = .ok (df.getColD name) := by
  have hs := (mem_columns_iff df name).mp h
  unfold DFrame.getCol DFrame.getColD
  cases hf : df.cols.find? (fun c => c.1 == name) with
  | none => rw [hf] at hs; simp at hs
  | some c => rfl

theorem getCol_of_not_mem (df : DFrame) (name : String)
    (h : name ∉ df.columns) :
    df.getCol name = .error ("\x27" ++ name ++ "\x27") := by
  unfold DFrame.getCol
  cases hf : df.cols.find? (fun c => c.1 == name) with
  | none => rfl
  | some c =>
    exact absurd ((mem_columns_iff df name).mpr (by rw [hf]; rfl)) h

theorem getColD_length (df : DFrame) (name : String) (n : Nat)
    (hin : name ∈ df.columns) (hwf : ∀ c ∈ df.cols, c.2.length = n) :
    (df.getColD name).length = n := by
  have hs := (mem_columns_iff df name).mp hin
  unfold DFrame.getColD
  cases hf : df.cols.find? (fun c => c.1 == name) with
  | none => rw [hf] at hs; simp at hs
  | some c => exact hwf c (List.mem_of_find?_eq_some hf)

theorem find?_set_self (name : String) (v : List Cell) :
    ∀ cols : List (String × List Cell), (∃ c ∈ cols, c.1 = name) →
      (cols.map (fun c => if c.1 == name then (name, v) else c)).find?
          (fun c => c.1 == name) = some (name, v) := by
  intro cols
  induction cols with
  | nil => rintro ⟨c, hc, _⟩; simp at hc
  | cons c cs ih =>
    intro hex
    rw [List.map_cons]
    by_cases hc : c.1 = name
    · rw [if_pos (beq_iff_eq.mpr hc), List.find?_cons]
      simp
    · have hb : (c.1 == name) = false := beq_eq_false_iff_ne.mpr hc
      rw [if_neg (by simp [hb]), List.find?_cons, hb]
      refine ih ?_
      rcases hex with ⟨c2, hc2, he⟩
      rcases List.mem_cons.mp hc2 with rfl | hmem
      · exact absurd he hc
      · exact ⟨c2, hmem, he⟩

theorem find?_set_other (name nm : String) (h : nm ≠ name) (v : List Cell) :
    ∀ cols : List (String × List Cell),
      (cols.map (fun c => if c.1 == name then (name, v) else c)).find?
          (fun c => c.1 == nm) =
        cols.find? (fun c => c.1 == nm) := by
  intro cols
  induction cols with
  | nil => rfl
  | cons c cs ih =>
    rw [List.map_cons]
    by_cases hc : c.1 = name
    · have h1 : ((name, v).1 == nm) = false :=
        beq_eq_false_iff_ne.mpr (fun he => h he.symm)
      have h2 : (c.1 == nm) = false :=
        beq_eq_false_iff_ne.mpr (by rw [hc]; exact fun he => h he.symm)
      rw [if_pos (beq_iff_eq.mpr hc), List.find?_cons, List.find?_cons, h1, h2]
      exact ih
    · have hb : (c.1 == name) = false := beq_eq_false_iff_ne.mpr hc
      rw [if_neg (by simp [hb]), List.find?_cons, List.find?_cons]
      cases hcm : (c.1 == nm) with
      | true => rfl
      | false => exact ih

theorem find?_append_single (nm name : String) (h : nm ≠ name)
    (v : List Cell) :
    ∀ cols : List (String × List Cell),
      ((cols ++ [(name, v)]).find? (fun c => c.1 == nm)) =
        cols.find? (fun c => c.1 == nm) := by
  intro cols
  induction cols with
  | nil =>
    show List.find? _ [(name, v)] = none
    rw [List.find?_cons]
    have h1 : ((name, v).1 == nm) = false :=
      beq_eq_false_iff_ne.mpr (fun he => h he.symm)
    rw [h1]
    rfl
  | cons c cs ih =>
    rw [List.cons_append, List.find?_cons, List.find?_cons]
    cases hcm : (c.1 == nm) with
    | true => rfl
    | false => exact ih

theorem setCol_columns (df : DFrame) (name : String) (v : List Cell)
    (h : name ∈ df.columns) : (df.setCol name v).columns = df.columns := by
  unfold DFrame.setCol
  rw [if_pos ((mem_columns_iff df name).mp h)]
  show List.map Prod.fst (List.map _ df.cols) = _
  rw [List.map_map]
  refine List.map_congr_left ?_
  intro c _
  by_cases hc : c.1 = name <;> simp [hc]

theorem getColD_setCol_self (df : DFrame) (name : String) (v : List Cell)
    (h : name ∈ df.columns) : (df.setCol name v).getColD name = v := by
  unfold DFrame.setCol
  rw [if_pos ((mem_columns_iff df name).mp h)]
  unfold DFrame.getColD
  have hex : ∃ c ∈ df.cols, c.1 = name := by
    rcases (by simpa [DFrame.columns] using h : ∃ c ∈ df.cols, c.1 = name)
      with ⟨c, hc, he⟩
    exact ⟨c, hc, he⟩
  rw [find?_set_self name v df.cols hex]

theorem getColD_setCol_other (df : DFrame) (name nm : String)
    (v : List Cell) (h : nm ≠ name) :
    (df.setCol name v).getColD nm = df.getColD nm := by
  unfold DFrame.setCol
  by_cases hp : (df.cols.find? (fun c => c.1 == name)).isSome
  · rw [if_pos hp]
    unfold DFrame.getColD
    rw [find?_set_other name nm h v df.cols]
  · rw [if_neg hp]
    unfold DFrame.getColD
    rw [find?_append_single nm name h v df.cols]

theorem getCol_setCol_other (df : DFrame) (name nm : String)
    (v : List Cell) (h : nm ≠ name) :
    (df.setCol name v).getCol nm = df.getCol nm := by
  unfold DFrame.setCol
  by_cases hp : (df.cols.find? (fun c => c.1 == name)).isSome
  · rw [if_pos hp]
    unfold DFrame.getCol
    rw [find?_set_other name nm h v df.cols]
  · rw [if_neg hp]
    unfold DFrame.getCol
    rw [find?_append_single nm name h v df.cols]

theorem astypeIntCol_ok (l : List Cell) (h : ∀ c ∈ l, isNumCell c = true) :
    astypeIntCol l = .ok (l.map coerceVal) := by
  induction l with
  | nil => rfl
  | cons c cs ih =>
    have hcnum : isNumCell c = true := h c (List.mem_cons_self c cs)
    have hc : astypeIntCell c = .ok (coerceVal c) := by
      cases c with
      | int v => rfl
      | flo v => rfl
      | null => simp [isNumCell] at hcnum
      | str v => simp [isNumCell] at hcnum
      | dur t => simp [isNumCell] at hcnum
    have hcs := ih (fun c' hc' => h c' (List.mem_cons_of_mem _ hc'))
    unfold astypeIntCol at hcs ⊢
    rw [List.mapM_cons, hc, hcs]
    rfl

theorem selectAux_ok (df : DFrame) :
    ∀ names : List String, (∀ nm ∈ names, nm ∈ df.columns) →
      names.mapM (fun n => (df.getCol n).map (fun vs => (n, vs))) =
        .ok (names.map (fun nm => (nm, df.getColD nm))) := by
  intro names
  induction names with
  | nil => intro _; rfl
  | cons nm ns ih =>
    intro h
    rw [List.mapM_cons, getCol_of_mem df nm (h nm (List.mem_cons_self nm ns)),
      ih (fun m hm => h m (List.mem_cons_of_mem _ hm))]
    rfl

theorem select_ok (df : DFrame) (names : List String)
    (h : ∀ nm ∈ names, nm ∈ df.columns) :
    df.select names = .ok ⟨names.map (fun nm => (nm, df.getColD nm))⟩ := by
  unfold DFrame.select
  rw [selectAux_ok df names h]
  rfl

theorem getD_map_lt {α β : Type} (f : α → β) (l : List α) (i : Nat)
    (h : i < l.length) (d : β) (d' : α) :
    (l.map f).getD i d = f (l.getD i d') := by
  rw [List.getD_eq_getElem?_getD, List.getD_eq_getElem?_getD,
    List.getElem?_map, List.getElem?_eq_getElem h]
  rfl

/-! ### The computed output of the results pipeline -/

theorem rename_final (p f ab tm l t s pt : List Cell) :
    DFrame.rename ⟨[("Position", p), ("FullName", f), ("Abbreviation", ab),
      ("TeamName", tm), ("Laps", l), ("Time", t), ("Status", s),
      ("Points", pt)]⟩ renameMap =
    ⟨[("Position", p), ("FullName", f), ("Driver", ab), ("Team", tm),
      ("Laps", l), ("Time", t), ("Status", s), ("Points", pt)]⟩ := rfl

theorem toRecords_final (p f ab tm l t s pt : List Cell) :
    toRecords ⟨[("Position", p), ("FullName", f), ("Driver", ab),
      ("Team", tm), ("Laps", l), ("Time", t), ("Status", s),
      ("Points", pt)]⟩ =
    (List.range p.length).map (fun i =>
      [("Position", p.getD i .null), ("FullName", f.getD i .null),
       ("Driver", ab.getD i .null), ("Team", tm.getD i .null),
       ("Laps", l.getD i .null), ("Time", t.getD i .null),
       ("Status", s.getD i .null), ("Points", pt.getD i .null)]) := rfl

theorem getRaceResultsCore_ok (df : DFrame) (n : Nat)
    (hreq : ∀ nm ∈ final_cols, nm ∈ df.columns)
    (hwf : ∀ c ∈ df.cols, c.2.length = n)
    (hpos : ∀ c ∈ df.getColD "Position", isNumCell c = true) :
    getRaceResultsCore df = .ok ((List.range n).map (expectedRow df)) := by
  have hPosIn : "Position" ∈ df.columns := hreq _ (by simp [final_cols])
  have hTimeIn : "Time" ∈ df.columns := hreq _ (by simp [final_cols])
  have hlenP : (df.getColD "Position").length = n :=
    getColD_length df "Position" n hPosIn hwf
  have hlenT : (df.getColD "Time").length = n :=
    getColD_length df "Time" n hTimeIn hwf
  have hcols1 : (df.setCol "Time" ((df.getColD "Time").map timeApplyCell)).columns
      = df.columns := setCol_columns df "Time" _ hTimeIn
  have hPosIn1 : "Position" ∈
      (df.setCol "Time" ((df.getColD "Time").map timeApplyCell)).columns := by
    rw [hcols1]; exact hPosIn
  have hgc : (df.setCol "Time" ((df.getColD "Time").map timeApplyCell)).getCol
      "Position" = .ok (df.getColD "Position") := by
    rw [getCol_setCol_other df "Time" "Position" _ (by decide)]
    exact getCol_of_mem df "Position" hPosIn
  have hast : astypeIntCol (df.getColD "Position") =
      .ok ((df.getColD "Position").map coerceVal) := astypeIntCol_ok _ hpos
  have hcols2 : ((df.setCol "Time" ((df.getColD "Time").map timeApplyCell)).setCol
      "Position" ((df.getColD "Position").map coerceVal)).columns = df.columns := by
    rw [setCol_columns _ "Position" _ hPosIn1, hcols1]
  have hmiss : final_cols.filter (fun c =>
      !(((df.setCol "Time" ((df.getColD "Time").map timeApplyCell)).setCol
        "Position" ((df.getColD "Position").map coerceVal)).columns.contains c))
      = [] := by
    rw [List.filter_eq_nil_iff]
    intro nm hnm
    simp [hcols2, List.contains, List.elem_iff, hreq nm hnm]
  have hsel : ((df.setCol "Time" ((df.getColD "Time").map timeApplyCell)).setCol
      "Position" ((df.getColD "Position").map coerceVal)).select final_cols =
      .ok ⟨final_cols.map (fun nm => (nm,
        ((df.setCol "Time" ((df.getColD "Time").map timeApplyCell)).setCol
          "Position" ((df.getColD "Position").map coerceVal)).getColD nm))⟩ :=
    select_ok _ final_cols (fun nm hnm => by rw [hcols2]; exact hreq nm hnm)
  have h2P : ((df.setCol "Time" ((df.getColD "Time").map timeApplyCell)).setCol
      "Position" ((df.getColD "Position").map coerceVal)).getColD "Position" =
      (df.getColD "Position").map coerceVal :=
    getColD_setCol_self _ "Position" _ hPosIn1
  have h2T : ((df.setCol "Time" ((df.getColD "Time").map timeApplyCell)).setCol
      "Position" ((df.getColD "Position").map coerceVal)).getColD "Time" =
      (df.getColD "Time").map timeApplyCell := by
    rw [getColD_setCol_other _ "Position" "Time" _ (by decide)]
    exact getColD_setCol_self df "Time" _ hTimeIn
  have h2F : ((df.setCol "Time" ((df.getColD "Time").map timeApplyCell)).setCol
      "Position" ((df.getColD "Position").map coerceVal)).getColD "FullName" =
      df.getColD "FullName" := by
    rw [getColD_setCol_other _ "Position" "FullName" _ (by decide),
      getColD_setCol_other df "Time" "FullName" _ (by decide)]
  have h2Ab : ((df.setCol "Time" ((df.getColD "Time").map timeApplyCell)).setCol
      "Position" ((df.getColD "Position").map coerceVal)).getColD "Abbreviation" =
      df.getColD "Abbreviation" := by
    rw [getColD_setCol_other _ "Position" "Abbreviation" _ (by decide),
      getColD_setCol_other df "Time" "Abbreviation" _ (by decide)]
  have h2Tm : ((df.setCol "Time" ((df.getColD "Time").map timeApplyCell)).setCol
      "Position" ((df.getColD "Position").map coerceVal)).getColD "TeamName" =
      df.getColD "TeamName" := by
    rw [getColD_setCol_other _ "Position" "TeamName" _ (by decide),
      getColD_setCol_other df "Time" "TeamName" _ (by decide)]
  have h2L : ((df.setCol "Time" ((df.getColD "Time").map timeApplyCell)).setCol
      "Position" ((df.getColD "Position").map coerceVal)).getColD "Laps" =
      df.getColD "Laps" := by
    rw [getColD_setCol_other _ "Position" "Laps" _ (by decide),
      getColD_setCol_other df "Time" "Laps" _ (by decide)]
  have h2S : ((df.setCol "Time" ((df.getColD "Time").map timeApplyCell)).setCol
      "Position" ((df.getColD "Position").map coerceVal)).getColD "Status" =
      df.getColD "Status" := by
    rw [getColD_setCol_other _ "Position" "Status" _ (by decide),
      getColD_setCol_other df "Time" "Status" _ (by decide)]
  have h2Pt : ((df.setCol "Time" ((df.getColD "Time").map timeApplyCell)).setCol
      "Position" ((df.getColD "Position").map coerceVal)).getColD "Points" =
      df.getColD "Points" := by
    rw [getColD_setCol_other _ "Position" "Points" _ (by decide),
      getColD_setCol_other df "Time" "Points" _ (by decide)]
  simp only [getRaceResultsCore, if_pos hTimeIn, hgc, hast, hmiss, hsel,
    eq_self_iff_true, if_true]
  simp only [final_cols, List.map_cons, List.map_nil, h2P, h2T, h2F, h2Ab,
    h2Tm, h2L, h2S, h2Pt, rename_final, toRecords_final, List.length_map,
    hlenP]
  refine congrArg Except.ok (List.map_congr_left ?_)
  intro i hi
  have hi' : i < n := List.mem_range.mp hi
  unfold expectedRow
  rw [getD_map_lt coerceVal _ i (by rw [hlenP]; exact hi') _ Cell.null,
    getD_map_lt timeApplyCell _ i (by rw [hlenT]; exact hi') _ Cell.null]

/-! ### Lemmas: fastest lap, sorting, dedup, year range -/

theorem fastestStep_none (best : Option Lap) (l : Lap)
    (h : l.lapTime = none) : fastestStep best l = best := by
  unfold fastestStep
  rw [h]

theorem foldl_fastestStep_all_none :
    ∀ (laps : List Lap), (∀ l ∈ laps, l.lapTime = none) →
      ∀ b : Option Lap, List.foldl fastestStep b laps = b := by
  intro laps
  induction laps with
  | nil => intro _ b; rfl
  | cons l ls ih =>
    intro h b
    rw [List.foldl_cons, fastestStep_none b l (h l (List.mem_cons_self l ls))]
    exact ih (fun x hx => h x (List.mem_cons_of_mem _ hx)) b

theorem pick_fastest_none (laps : List Lap)
    (h : ∀ l ∈ laps, l.lapTime = none) : pick_fastest laps = none :=
  foldl_fastestStep_all_none laps h none

theorem insSorted_perm (x : String) : ∀ l, (insSorted x l).Perm (x :: l) := by
  intro l
  induction l with
  | nil => exact List.Perm.refl _
  | cons y ys ih =>
    simp only [insSorted]
    by_cases h : x.toList ≤ y.toList
    · rw [if_pos h]
    · rw [if_neg h]
      exact (ih.cons y).trans (List.Perm.swap x y ys)

theorem insSorted_sorted (x : String) :
    ∀ l, l.Sorted (· ≤ ·) → (insSorted x l).Sorted (· ≤ ·) := by
  intro l
  induction l with
  | nil => intro _; simp [insSorted]
  | cons y ys ih =>
    intro hs
    rw [List.sorted_cons] at hs
    simp only [insSorted]
    by_cases h : x.toList ≤ y.toList
    · have hxy : x ≤ y := String.le_iff_toList_le.mpr h
      rw [if_pos h, List.sorted_cons]
      refine ⟨?_, List.sorted_cons.mpr hs⟩
      intro b hb
      rcases List.mem_cons.mp hb with rfl | hmem
      · exact hxy
      · exact le_trans hxy (hs.1 b hmem)
    · have hyx : y ≤ x :=
        le_of_not_le (fun hc => h (String.le_iff_toList_le.mp hc))
      rw [if_neg h, List.sorted_cons]
      constructor
      · intro b hb
        rcases List.mem_cons.mp ((insSorted_perm x ys).mem_iff.mp hb) with
          rfl | hmem
        · exact hyx
        · exact hs.1 b hmem
      · exact ih hs.2

theorem sortStr_perm : ∀ l, (sortStr l).Perm l := by
  intro l
  induction l with
  | nil => exact List.Perm.refl _
  | cons x xs ih =>
    simp only [sortStr]
    exact (insSorted_perm x (sortStr xs)).trans (ih.cons x)

theorem sortStr_sorted : ∀ l, (sortStr l).Sorted (· ≤ ·) := by
  intro l
  induction l with
  | nil => simp [sortStr]
  | cons x xs ih =>
    simp only [sortStr]
    exact insSorted_sorted x (sortStr xs) ih

theorem uniqueAux_mem (a : String) :
    ∀ (l seen : List String), a ∈ uniqueAux seen l ↔ a ∈ l ∧ a ∉ seen := by
  intro l
  induction l with
  | nil => intro seen; simp [uniqueAux]
  | cons x xs ih =>
    intro seen
    simp only [uniqueAux]
    by_cases hx : x ∈ seen
    · rw [if_pos hx, ih seen]
      constructor
      · rintro ⟨h1, h2⟩; exact ⟨List.mem_cons_of_mem _ h1, h2⟩
      · rintro ⟨h1, h2⟩
        rcases List.mem_cons.mp h1 with rfl | hmem
        · exact absurd hx h2
        · exact ⟨hmem, h2⟩
    · rw [if_neg hx]
      constructor
      · intro hmem
        rcases List.mem_cons.mp hmem with rfl | hmem2
        · exact ⟨List.mem_cons_self _ _, hx⟩
        · rcases (ih (x :: seen)).mp hmem2 with ⟨h1, h2⟩
          exact ⟨List.mem_cons_of_mem _ h1,
            fun hseen => h2 (List.mem_cons_of_mem _ hseen)⟩
      · rintro ⟨h1, h2⟩
        rcases List.mem_cons.mp h1 with rfl | hmem
        · exact List.mem_cons_self _ _
        · by_cases hax : a = x
          · subst hax; exact List.mem_cons_self _ _
          · refine List.mem_cons_of_mem _ ((ih (x :: seen)).mpr ⟨hmem, ?_⟩)
            intro hc
            rcases List.mem_cons.mp hc with h3 | h3
            · exact hax h3
            · exact h2 h3

theorem uniqueAux_nodup :
    ∀ (l seen : List String), (uniqueAux seen l).Nodup := by
  intro l
  induction l with
  | nil => intro seen; simp [uniqueAux]
  | cons x xs ih =>
    intro seen
    simp only [uniqueAux]
    by_cases hx : x ∈ seen
    · rw [if_pos hx]; exact ih seen
    · rw [if_neg hx, List.nodup_cons]
      refine ⟨?_, ih (x :: seen)⟩
      intro hc
      exact ((uniqueAux_mem x xs (x :: seen)).mp hc).2 (List.mem_cons_self _ _)

theorem uniqueList_mem (a : String) (l : List String) :
    a ∈ uniqueList l ↔ a ∈ l := by
  unfold uniqueList
  rw [uniqueAux_mem]
  simp

theorem uniqueList_nodup (l : List String) : (uniqueList l).Nodup :=
  uniqueAux_nodup l []

theorem sortedDrivers_props (l : List String) :
    (sortStr (uniqueList l)).Sorted (· ≤ ·) ∧
    (sortStr (uniqueList l)).Nodup ∧
    ∀ a, a ∈ sortStr (uniqueList l) ↔ a ∈ l :=
  ⟨sortStr_sorted _,
   (sortStr_perm (uniqueList l)).symm.nodup (uniqueList_nodup l),
   fun a => (sortStr_perm (uniqueList l)).mem_iff.trans (uniqueList_mem a l)⟩

theorem yearsList_mem (cy : Int) (h : 2018 ≤ cy) (z : Int) :
    z ∈ yearsList cy ↔ 2018 ≤ z ∧ z ≤ cy := by
  unfold yearsList
  rw [List.mem_map]
  constructor
  · rintro ⟨i, hi, rfl⟩
    rw [List.mem_range] at hi
    omega
  · rintro ⟨h1, h2⟩
    refine ⟨(cy - z).toNat, ?_, ?_⟩
    · rw [List.mem_range]; omega
    · omega

theorem yearsList_pairwise (cy : Int) :
    (yearsList cy).Pairwise (· > ·) := by
  unfold yearsList
  rw [List.pairwise_map]
  refine (List.pairwise_lt_range _).imp ?_
  intro a b hab
  omega

theorem yearsList_head (cy : Int) (h : 2018 ≤ cy) :
    (yearsList cy).head? = some cy := by
  unfold yearsList
  obtain ⟨k, hk⟩ : ∃ k, (cy - 2017).toNat = k + 1 :=
    ⟨(cy - 2017).toNat - 1, by omega⟩
  rw [hk, List.range_succ_eq_map, List.map_cons, List.head?_cons]
  simp

theorem yearsList_getLast (cy : Int) (h : 2018 ≤ cy) :
    (yearsList cy).getLast? = some 2018 := by
  unfold yearsList
  obtain ⟨k, hk⟩ : ∃ k, (cy - 2017).toNat = k + 1 :=
    ⟨(cy - 2017).toNat - 1, by omega⟩
  rw [hk, List.range_succ, List.map_append, List.map_cons, List.map_nil,
    List.getLast?_concat]
  have hke : cy - (k : Int) = 2018 := by omega
  rw [hke]

theorem get_race_results_exclusive (ad : Adapter) (y : Int) (r : String) :
    (get_race_results ad y r).1.isSome ↔ (get_race_results ad y r).2 = none := by
  unfold get_race_results
  cases h : ad.loadLight y r with
  | error e => simp
  | ok sess =>
    cases hc : getRaceResultsCore sess.results with
    | ok rows => simp [hc]
    | error e => simp [hc]

theorem create_dashboard_exclusive (ad : Adapter) (y : Int) (r d : String) :
    (create_dashboard ad y r d).1.isSome ↔
      (create_dashboard ad y r d).2 = none := by
  unfold create_dashboard
  cases h : ad.loadFull y r with
  | error e => simp
  | ok sess =>
    by_cases h0 : ((sess.laps.filter (fun l => l.driver == d)).length == 0) = true
    · simp [h0]
    · cases hf : pick_fastest (sess.laps.filter (fun l => l.driver == d)) with
      | none => simp [h0, hf]
      | some fl =>
        by_cases ht : fl.telemetry.isEmpty = true
        · simp [h0, hf, ht]
        · simp [h0, hf, ht]

/-! ### Lemmas: the resolver branch by branch -/

theorem index_none (ad : Adapter) (cy : Int) (qr qd : Option String) :
    index ad cy none qr qd =
      ⟨yearsList cy, [], [], none, qr, qd, none, none, none⟩ := rfl

theorem index_zero (ad : Adapter) (cy : Int) (qr qd : Option String) :
    index ad cy (some 0) qr qd =
      ⟨yearsList cy, [], [], some 0, qr, qd, none, none, none⟩ := by
  simp [index]

theorem index_schedule_error (ad : Adapter) (cy y : Int)
    (qr qd : Option String) (e : String) (hy : y ≠ 0)
    (he : ad.schedule y = .error e) :
    index ad cy (some y) qr qd =
      ⟨yearsList cy, [], [], some y, qr, qd, none, none,
       some (routeErr e)⟩ := by
  simp only [index, indexCore, if_neg hy, he]

theorem index_races_only (ad : Adapter) (cy y : Int) (qd : Option String)
    (races : List String) (hy : y ≠ 0) (h1 : ad.schedule y = .ok races) :
    index ad cy (some y) none qd =
      ⟨yearsList cy, races, [], some y, none, qd, none, none, none⟩ := by
  simp only [index, indexCore, if_neg hy, h1]

theorem index_races_empty_r (ad : Adapter) (cy y : Int) (qd : Option String)
    (races : List String) (hy : y ≠ 0) (h1 : ad.schedule y = .ok races) :
    index ad cy (some y) (some "") qd =
      ⟨yearsList cy, races, [], some y, some "", qd, none, none, none⟩ := by
  simp only [index, indexCore, if_neg hy, h1, eq_self_iff_true, if_true]

theorem index_load_error (ad : Adapter) (cy y : Int) (r : String)
    (qd : Option String) (races : List String) (e : String) (hy : y ≠ 0)
    (hr : r ≠ "") (h1 : ad.schedule y = .ok races)
    (h2 : ad.loadLight y r = .error e) :
    index ad cy (some y) (some r) qd =
      ⟨yearsList cy, races, [], some y, some r, qd, none, none,
       some (routeErr e)⟩ := by
  simp only [index, indexCore, if_neg hy, h1, if_neg hr, h2]

theorem index_drivers_only (ad : Adapter) (cy y : Int) (r : String)
    (races : List String) (sess : SessionData) (hy : y ≠ 0) (hr : r ≠ "")
    (h1 : ad.schedule y = .ok races) (h2 : ad.loadLight y r = .ok sess) :
    index ad cy (some y) (some r) none =
      ⟨yearsList cy, races, sortStr (uniqueList (sess.laps.map Lap.driver)),
       some y, some r, none, none, none, none⟩ := by
  simp only [index, indexCore, if_neg hy, h1, if_neg hr, h2]

theorem index_driver_empty (ad : Adapter) (cy y : Int) (r : String)
    (races : List String) (sess : SessionData) (hy : y ≠ 0) (hr : r ≠ "")
    (h1 : ad.schedule y = .ok races) (h2 : ad.loadLight y r = .ok sess) :
    index ad cy (some y) (some r) (some "") =
      ⟨yearsList cy, races, sortStr (uniqueList (sess.laps.map Lap.driver)),
       some y, some r, some "", none, none, none⟩ := by
  simp only [index, indexCore, if_neg hy, h1, if_neg hr, h2,
    eq_self_iff_true, if_true]

theorem index_all (ad : Adapter) (cy y : Int) (r : String)
    (races : List String) (sess : SessionData) (hy : y ≠ 0) (hr : r ≠ "")
    (h1 : ad.schedule y = .ok races) (h2 : ad.loadLight y r = .ok sess) :
    index ad cy (some y) (some r) (some "ALL") =
      ⟨yearsList cy, races, sortStr (uniqueList (sess.laps.map Lap.driver)),
       some y, some r, some "ALL", none, (get_race_results ad y r).1,
       (get_race_results ad y r).2⟩ := by
  simp only [index, indexCore, if_neg hy, h1, if_neg hr, h2,
    if_neg (by decide : ¬("ALL" : String) = ""), eq_self_iff_true, if_true]

theorem index_driver (ad : Adapter) (cy y : Int) (r d : String)
    (races : List String) (sess : SessionData) (hy : y ≠ 0) (hr : r ≠ "")
    (hd : d ≠ "") (hall : d ≠ "ALL") (h1 : ad.schedule y = .ok races)
    (h2 : ad.loadLight y r = .ok sess) :
    index ad cy (some y) (some r) (some d) =
      ⟨yearsList cy, races, sortStr (uniqueList (sess.laps.map Lap.driver)),
       some y, some r, some d, (create_dashboard ad y r d).1, none,
       (create_dashboard ad y r d).2⟩ := by
  simp only [index, indexCore, if_neg hy, h1, if_neg hr, h2, if_neg hd,
    if_neg hall]

theorem index_at_most_one (ad : Adapter) (cy : Int) (qy : Option Int)
    (qr qd : Option String) :
    (index ad cy qy qr qd).plot_data = none ∨
    (index ad cy qy qr qd).results_data = none := by
  rcases qy with _ | y
  · left; rw [index_none]
  · by_cases hy : y = 0
    · subst hy; left; rw [index_zero]
    · rcases h1 : ad.schedule y with e | races
      · left; rw [index_schedule_error ad cy y qr qd e hy h1]
      · rcases qr with _ | r
        · left; rw [index_races_only ad cy y qd races hy h1]
        · by_cases hr : r = ""
          · subst hr; left; rw [index_races_empty_r ad cy y qd races hy h1]
          · rcases h2 : ad.loadLight y r with e | sess
            · left; rw [index_load_error ad cy y r qd races e hy hr h1 h2]
            · rcases qd with _ | d
              · left
                rw [index_drivers_only ad cy y r races sess hy hr h1 h2]
              · by_cases hd : d = ""
                · subst hd
                  left
                  rw [index_driver_empty ad cy y r races sess hy hr h1 h2]
                · by_cases hall : d = "ALL"
                  · subst hall
                    left
                    rw [index_all ad cy y r races sess hy hr h1 h2]
                  · right
                    rw [index_driver ad cy y r d races sess hy hr hd hall h1
                      h2]

theorem index_populated_truthy (ad : Adapter) (cy : Int) (qy : Option Int)
    (qr qd : Option String) :
    ((index ad cy qy qr qd).plot_data.isSome = true ∨
     (index ad cy qy qr qd).results_data.isSome = true) →
    (∃ y, qy = some y ∧ y ≠ 0) ∧ (∃ r, qr = some r ∧ r ≠ "") ∧
    (∃ d, qd = some d ∧ d ≠ "") := by
  rcases qy with _ | y
  · rw [index_none]; intro h; simp at h
  · by_cases hy : y = 0
    · subst hy; rw [index_zero]; intro h; simp at h
    · rcases h1 : ad.schedule y with e | races
      · rw [index_schedule_error ad cy y qr qd e hy h1]
        intro h; simp at h
      · rcases qr with _ | r
        · rw [index_races_only ad cy y qd races hy h1]
          intro h; simp at h
        · by_cases hr : r = ""
          · subst hr
            rw [index_races_empty_r ad cy y qd races hy h1]
            intro h; simp at h
          · rcases h2 : ad.loadLight y r with e | sess
            · rw [index_load_error ad cy y r qd races e hy hr h1 h2]
              intro h; simp at h
            · rcases qd with _ | d
              · rw [index_drivers_only ad cy y r races sess hy hr h1 h2]
                intro h; simp at h
              · by_cases hd : d = ""
                · subst hd
                  rw [index_driver_empty ad cy y r races sess hy hr h1 h2]
                  intro h; simp at h
                · intro _
                  exact ⟨⟨y, rfl, hy⟩, ⟨r, rfl, hr⟩, ⟨d, rfl, hd⟩⟩

/-- C2: `build_dashboard` validates in order and returns a null image
with the corresponding error: a driver with zero laps in the session
yields the "No data found for driver" error; otherwise, if no lap of
the driver has a non-null lap time, the "No completed lap" error;
otherwise, if the fastest lap's telemetry is empty, the no-telemetry
error. -/
theorem create_dashboard_validation (ad : Adapter) (y : Int) (r d : String)
    (sess : SessionData) (hl : ad.loadFull y r = .ok sess) :
    ((sess.laps.filter (fun l => l.driver == d)).length = 0 →
      create_dashboard ad y r d =
        (none, some ("Error: No data found for driver " ++ d ++ "."))) ∧
    ((sess.laps.filter (fun l => l.driver == d)) ≠ [] →
      (∀ l ∈ sess.laps.filter (fun l => l.driver == d), l.lapTime = none) →
      create_dashboard ad y r d =
        (none, some ("Error: No completed lap data found for " ++ d ++
          " (e.g., DNF on Lap 1)."))) ∧
    (∀ fl, pick_fastest (sess.laps.filter (fun l => l.driver == d)) =
        some fl → fl.telemetry = [] →
      create_dashboard ad y r d =
        (none, some ("Error: No telemetry data found for " ++ d ++
          "\x27s fastest lap."))) := by
  refine ⟨?_, ?_, ?_⟩
  · intro h0
    simp only [create_dashboard, hl]
    simp [h0]
  · intro h1 h2
    have hlen : (sess.laps.filter (fun l => l.driver == d)).length ≠ 0 := by
      simpa [List.length_eq_zero] using h1
    have hpf := pick_fastest_none _ h2
    simp only [create_dashboard, hl]
    simp [hlen, hpf]
  · intro fl hf hte
    have h1 : (sess.laps.filter (fun l => l.driver == d)) ≠ [] := by
      intro he
      rw [he] at hf
      simp [pick_fastest] at hf
    have hlen : (sess.laps.filter (fun l => l.driver == d)).length ≠ 0 := by
      simpa [List.length_eq_zero] using h1
    simp only [create_dashboard, hl]
    simp [hlen, hf, hte]

theorem create_dashboard_validation_witness :
    create_dashboard adC2 2024 "A" "VER" =
      (none, some "Error: No data found for driver VER.") ∧
    create_dashboard adC2 2024 "B" "VER" =
      (none,
       some "Error: No completed lap data found for VER (e.g., DNF on Lap 1).") ∧
    create_dashboard adC2 2024 "C" "VER" =
      (none, some "Error: No telemetry data found for VER\x27s fastest lap.") ∧
    containsSub "Error: No data found for driver VER."
      "No data found for driver" = true ∧
    containsSub "Error: No completed lap data found for VER (e.g., DNF on Lap 1)."
      "No completed lap" = true := by
  refine ⟨?_, ?_, ?_, by decide, by decide⟩
  · exact ((create_dashboard_validation adC2 2024 "A" "VER" ⟨[], ⟨[]⟩⟩
      rfl).1 (by decide)).trans (by decide)
  · exact ((create_dashboard_validation adC2 2024 "B" "VER"
      ⟨[⟨"VER", none, []⟩], ⟨[]⟩⟩ rfl).2.1 (by decide) (by decide)).trans
      (by decide)
  · exact ((create_dashboard_validation adC2 2024 "C" "VER"
      ⟨[⟨"VER", some 91000, []⟩], ⟨[]⟩⟩ rfl).2.2 ⟨"VER", some 91000, []⟩
      (by decide) rfl).trans (by decide)

/-- C1 counterexample: on a table missing both `Position` and `Time`,
`get_race_results` returns the bare KeyError text for `Position`; the
error is not the MissingColumns message and does not name the absent
field `Time`, so the claim fails as stated. -/
theorem get_race_results_missing_counterexample :
    (get_race_results adC1 2024 "Bahrain").1 = none ∧
    (get_race_results adC1 2024 "Bahrain").2 =
      some "An error occurred: \x27Position\x27. Could not load results." ∧
    containsSub "An error occurred: \x27Position\x27. Could not load results."
      "Time" = false ∧
    containsSub "An error occurred: \x27Position\x27. Could not load results."
      "Data is missing columns" = false := by
  refine ⟨rfl, by decide, by decide, by decide⟩

/-- C1 (amended): when the table contains a numeric `Position` column
but lacks some other required field, `get_race_results` returns a null
row list and the MissingColumns error naming exactly the absent fields;
when `Position` itself is absent, `results['Position']` raises first,
so the error is the bare KeyError text naming only `Position`. -/
theorem get_race_results_missing (ad : Adapter) (y : Int) (r : String)
    (sess : SessionData) (hl : ad.loadLight y r = .ok sess) :
    ("Position" ∉ sess.results.columns →
      get_race_results ad y r =
        (none,
         some "An error occurred: \x27Position\x27. Could not load results.")) ∧
    ("Position" ∈ sess.results.columns →
      (∀ c ∈ sess.results.getColD "Position", isNumCell c = true) →
      missingColsOf sess.results ≠ [] →
      get_race_results ad y r =
        (none, some ("An error occurred: " ++
          ("Data is missing columns: " ++
            String.intercalate ", " (missingColsOf sess.results)) ++
          ". Could not load results."))) := by
  constructor
  · intro hPos
    have hcore : getRaceResultsCore sess.results =
        .error ("\x27" ++ "Position" ++ "\x27") := by
      by_cases hT : "Time" ∈ sess.results.columns
      · have hg : (sess.results.setCol "Time"
            ((sess.results.getColD "Time").map timeApplyCell)).getCol
            "Position" = .error ("\x27" ++ "Position" ++ "\x27") := by
          rw [getCol_setCol_other _ "Time" "Position" _ (by decide)]
          exact getCol_of_not_mem _ _ hPos
        simp only [getRaceResultsCore, if_pos hT, hg]
      · have hg : sess.results.getCol "Position" =
            .error ("\x27" ++ "Position" ++ "\x27") :=
          getCol_of_not_mem _ _ hPos
        simp only [getRaceResultsCore, if_neg hT, hg]
    simp only [get_race_results, hl, hcore]
    rfl
  · intro hPos hnum hne
    have hast : astypeIntCol (sess.results.getColD "Position") =
        .ok ((sess.results.getColD "Position").map coerceVal) :=
      astypeIntCol_ok _ hnum
    have hcore : getRaceResultsCore sess.results =
        .error ("Data is missing columns: " ++
          String.intercalate ", " (missingColsOf sess.results)) := by
      by_cases hT : "Time" ∈ sess.results.columns
      · have hcols1 : (sess.results.setCol "Time"
            ((sess.results.getColD "Time").map timeApplyCell)).columns =
            sess.results.columns := setCol_columns _ "Time" _ hT
        have hPos1 : "Position" ∈ (sess.results.setCol "Time"
            ((sess.results.getColD "Time").map timeApplyCell)).columns := by
          rw [hcols1]; exact hPos
        have hg : (sess.results.setCol "Time"
            ((sess.results.getColD "Time").map timeApplyCell)).getCol
            "Position" = .ok (sess.results.getColD "Position") := by
          rw [getCol_setCol_other _ "Time" "Position" _ (by decide)]
          exact getCol_of_mem _ _ hPos
        have hcols2 : ((sess.results.setCol "Time"
            ((sess.results.getColD "Time").map timeApplyCell)).setCol
            "Position"
            ((sess.results.getColD "Position").map coerceVal)).columns =
            sess.results.columns := by
          rw [setCol_columns _ "Position" _ hPos1, hcols1]
        have hfil : final_cols.filter (fun c =>
            !(((sess.results.setCol "Time"
              ((sess.results.getColD "Time").map timeApplyCell)).setCol
              "Position"
              ((sess.results.getColD "Position").map
                coerceVal)).columns.contains c)) =
            missingColsOf sess.results := by
          unfold missingColsOf
          simp only [hcols2]
        simp only [getRaceResultsCore, if_pos hT, hg, hast, hfil,
          if_neg hne]
      · have hcols2 : (sess.results.setCol "Position"
            ((sess.results.getColD "Position").map coerceVal)).columns =
            sess.results.columns := setCol_columns _ "Position" _ hPos
        have hg : sess.results.getCol "Position" =
            .ok (sess.results.getColD "Position") :=
          getCol_of_mem _ _ hPos
        have hfil : final_cols.filter (fun c =>
            !((sess.results.setCol "Position"
              ((sess.results.getColD "Position").map
                coerceVal)).columns.contains c)) =
            missingColsOf sess.results := by
          unfold missingColsOf
          simp only [hcols2]
        simp only [getRaceResultsCore, if_neg hT, hg, hast, hfil,
          if_neg hne]
    simp only [get_race_results, hl, hcore]

theorem get_race_results_missing_witness :
    get_race_results adC1b 2024 "Bahrain" =
      (none,
       some "An error occurred: Data is missing columns: Laps. Could not load results.") ∧
    get_race_results adC1 2024 "Sakhir" =
      (none,
       some "An error occurred: \x27Position\x27. Could not load results.") := by
  constructor
  · exact ((get_race_results_missing adC1b 2024 "Bahrain" ⟨[], dfC1b⟩
      rfl).2 (by decide) (by decide) (by decide)).trans (by decide)
  · exact (get_race_results_missing adC1 2024 "Sakhir" ⟨[], dfC1⟩ rfl).1
      (by decide)

/-- C3: for a results table with all required fields (well-formed, with
a numeric position column), `get_race_results` returns one row per
record in adapter order; `Driver` is the record's abbreviation, `Team`
the team name, `FullName` passes through, and `Position` is the
finishing position coerced to an integer. -/
theorem get_results_rows (ad : Adapter) (y : Int) (r : String)
    (sess : SessionData) (n : Nat) (hl : ad.loadLight y r = .ok sess)
    (hreq : ∀ nm ∈ final_cols, nm ∈ sess.results.columns)
    (hwf : ∀ c ∈ sess.results.cols, c.2.length = n)
    (hpos : ∀ c ∈ sess.results.getColD "Position", isNumCell c = true) :
    ∃ rows, get_race_results ad y r = (some rows, none) ∧
      rows.length = n ∧
      ∀ i, i < n →
        rowGet (rows.getD i []) "Driver" =
          some ((sess.results.getColD "Abbreviation").getD i .null) ∧
        rowGet (rows.getD i []) "Team" =
          some ((sess.results.getColD "TeamName").getD i .null) ∧
        rowGet (rows.getD i []) "FullName" =
          some ((sess.results.getColD "FullName").getD i .null) ∧
        ∀ v : Int, ((sess.results.getColD "Position").getD i .null = .int v ∨
            (sess.results.getColD "Position").getD i .null = .flo v) →
          rowGet (rows.getD i []) "Position" = some (.int v) := by
  refine ⟨(List.range n).map (expectedRow sess.results), ?_, by simp, ?_⟩
  · simp only [get_race_results, hl,
      getRaceResultsCore_ok sess.results n hreq hwf hpos]
  · intro i hi
    have hrow : (((List.range n).map (expectedRow sess.results)).getD i []) =
        expectedRow sess.results i := by
      rw [List.getD_eq_getElem?_getD, List.getElem?_map,
        List.getElem?_range hi]
      rfl
    rw [hrow]
    refine ⟨by simp [rowGet, expectedRow], by simp [rowGet, expectedRow],
      by simp [rowGet, expectedRow], ?_⟩
    intro v hv
    have hg : rowGet (expectedRow sess.results i) "Position" =
        some (coerceVal ((sess.results.getColD "Position").getD i .null)) := by
      simp [rowGet, expectedRow]
    rcases hv with h | h <;> rw [hg, h] <;> rfl

theorem get_results_rows_witness : ∃ rows,
    get_race_results adFull 2024 "Bahrain" = (some rows, none) ∧
    rows.length = 2 ∧
    rowGet (rows.getD 0 []) "Driver" = some (.str "VER") ∧
    rowGet (rows.getD 1 []) "Team" = some (.str "Red Bull Racing") ∧
    rowGet (rows.getD 0 []) "FullName" = some (.str "Max Verstappen") ∧
    rowGet (rows.getD 0 []) "Position" = some (.int 1) := by
  obtain ⟨rows, h1, h2, h3⟩ := get_results_rows adFull 2024 "Bahrain"
    ⟨[], dfFull⟩ 2 rfl (by decide) (by decide) (by decide)
  refine ⟨rows, h1, h2, ?_, ?_, ?_, ?_⟩
  · exact ((h3 0 (by omega)).1).trans (by decide)
  · exact ((h3 1 (by omega)).2.1).trans (by decide)
  · exact ((h3 0 (by omega)).2.2.1).trans (by decide)
  · exact (h3 0 (by omega)).2.2.2 1 (Or.inr (by decide))

/-- C4: in the output of `get_race_results`, a null elapsed/gap time
cell renders as the literal string "N/A", and a non-null pandas
Timedelta renders as exactly its clock part — the leading
"<days> days " prefix of its string form is stripped. -/
theorem get_results_time_render (ad : Adapter) (y : Int) (r : String)
    (sess : SessionData) (n : Nat) (hl : ad.loadLight y r = .ok sess)
    (hreq : ∀ nm ∈ final_cols, nm ∈ sess.results.columns)
    (hwf : ∀ c ∈ sess.results.cols, c.2.length = n)
    (hpos : ∀ c ∈ sess.results.getColD "Position", isNumCell c = true) :
    ∃ rows, get_race_results ad y r = (some rows, none) ∧
      ∀ i, i < n →
        ((sess.results.getColD "Time").getD i .null = .null →
          rowGet (rows.getD i []) "Time" = some (.str "N/A")) ∧
        (∀ td, (sess.results.getColD "Time").getD i .null = .dur td →
          'd' ∉ td.clock.data →
          rowGet (rows.getD i []) "Time" = some (.str td.clock)) := by
  refine ⟨(List.range n).map (expectedRow sess.results), ?_, ?_⟩
  · simp only [get_race_results, hl,
      getRaceResultsCore_ok sess.results n hreq hwf hpos]
  · intro i hi
    have hrow : (((List.range n).map (expectedRow sess.results)).getD i []) =
        expectedRow sess.results i := by
      rw [List.getD_eq_getElem?_getD, List.getElem?_map,
        List.getElem?_range hi]
      rfl
    rw [hrow]
    have hg : rowGet (expectedRow sess.results i) "Time" =
        some (timeApplyCell ((sess.results.getColD "Time").getD i .null)) := by
      simp [rowGet, expectedRow]
    constructor
    · intro h
      rw [hg, h]
      rfl
    · intro td h hd
      rw [hg, h, timeApplyCell_dur td hd]

theorem get_results_time_render_witness : ∃ rows,
    get_race_results adFull 2024 "Sakhir" = (some rows, none) ∧
    rowGet (rows.getD 0 []) "Time" = some (.str "01:31:44.742000") ∧
    rowGet (rows.getD 1 []) "Time" = some (.str "N/A") := by
  obtain ⟨rows, h1, h2⟩ := get_results_time_render adFull 2024 "Sakhir"
    ⟨[], dfFull⟩ 2 rfl (by decide) (by decide) (by decide)
  refine ⟨rows, h1, ?_, ?_⟩
  · exact (h2 0 (by omega)).2 ⟨0, "01:31:44.742000"⟩ (by decide) (by decide)
  · exact (h2 1 (by omega)).1 (by decide)

/-- C9: every row returned by `get_race_results` holds exactly the
eight keys Position, FullName, Driver, Team, Laps, Time, Status,
Points, in that order; any other column of the adapter's table is
dropped and cannot be looked up in a row. -/
theorem get_results_row_keys (ad : Adapter) (y : Int) (r : String)
    (sess : SessionData) (n : Nat) (hl : ad.loadLight y r = .ok sess)
    (hreq : ∀ nm ∈ final_cols, nm ∈ sess.results.columns)
    (hwf : ∀ c ∈ sess.results.cols, c.2.length = n)
    (hpos : ∀ c ∈ sess.results.getColD "Position", isNumCell c = true) :
    ∃ rows, get_race_results ad y r = (some rows, none) ∧
      rows.length = n ∧
      ∀ i, i < n →
        ((rows.getD i []).map Prod.fst =
          ["Position", "FullName", "Driver", "Team", "Laps", "Time",
           "Status", "Points"]) ∧
        ∀ k, k ∉ (["Position", "FullName", "Driver", "Team", "Laps",
            "Time", "Status", "Points"] : List String) →
          rowGet (rows.getD i []) k = none := by
  refine ⟨(List.range n).map (expectedRow sess.results), ?_, by simp, ?_⟩
  · simp only [get_race_results, hl,
      getRaceResultsCore_ok sess.results n hreq hwf hpos]
  · intro i hi
    have hrow : (((List.range n).map (expectedRow sess.results)).getD i []) =
        expectedRow sess.results i := by
      rw [List.getD_eq_getElem?_getD, List.getElem?_map,
        List.getElem?_range hi]
      rfl
    rw [hrow]
    constructor
    · simp [expectedRow]
    · intro k hk
      simp only [List.mem_cons, List.not_mem_nil, or_false, not_or] at hk
      obtain ⟨h1, h2, h3, h4, h5, h6, h7, h8⟩ := hk
      have e1 : ("Position" == k) = false :=
        beq_eq_false_iff_ne.mpr (fun he => h1 he.symm)
      have e2 : ("FullName" == k) = false :=
        beq_eq_false_iff_ne.mpr (fun he => h2 he.symm)
      have e3 : ("Driver" == k) = false :=
        beq_eq_false_iff_ne.mpr (fun he => h3 he.symm)
      have e4 : ("Team" == k) = false :=
        beq_eq_false_iff_ne.mpr (fun he => h4 he.symm)
      have e5 : ("Laps" == k) = false :=
        beq_eq_false_iff_ne.mpr (fun he => h5 he.symm)
      have e6 : ("Time" == k) = false :=
        beq_eq_false_iff_ne.mpr (fun he => h6 he.symm)
      have e7 : ("Status" == k) = false :=
        beq_eq_false_iff_ne.mpr (fun he => h7 he.symm)
      have e8 : ("Points" == k) = false :=
        beq_eq_false_iff_ne.mpr (fun he => h8 he.symm)
      simp [rowGet, expectedRow, e1, e2, e3, e4, e5, e6, e7, e8]

theorem get_results_row_keys_witness : ∃ rows,
    get_race_results adFull 2024 "Jeddah" = (some rows, none) ∧
    (rows.getD 0 []).map Prod.fst =
      ["Position", "FullName", "Driver", "Team", "Laps", "Time", "Status",
       "Points"] ∧
    rowGet (rows.getD 0 []) "GridPosition" = none := by
  obtain ⟨rows, h1, _, h3⟩ := get_results_row_keys adFull 2024 "Jeddah"
    ⟨[], dfFull⟩ 2 rfl (by decide) (by decide) (by decide)
  exact ⟨rows, h1, (h3 0 (by omega)).1,
    (h3 0 (by omega)).2 "GridPosition" (by decide)⟩

/-- C5 counterexample: the driver parameter is set but the year is
absent, and neither the image payload nor the results list is
populated, refuting "exactly one of the two is populated whenever
driver is set". -/
theorem index_dispatch_counterexample :
    (index trivAdapter 2024 none none (some "VER")).selected_driver =
      some "VER" ∧
    (index trivAdapter 2024 none none (some "VER")).plot_data = none ∧
    (index trivAdapter 2024 none none (some "VER")).results_data = none :=
  ⟨rfl, rfl, rfl⟩

/-- C5 (amended): at most one of the image payload and the results list
is populated, and only when year, event and driver are all truthy; with
all three truthy and the adapter loads succeeding, driver "ALL"
dispatches to the Results Formatter and any other driver to the
Dashboard Builder; exactly one of the two is populated whenever the
request reports no error. -/
theorem index_dispatch (ad : Adapter) (cy : Int) (qy : Option Int)
    (qr qd : Option String) :
    (¬ ((index ad cy qy qr qd).plot_data.isSome = true ∧
        (index ad cy qy qr qd).results_data.isSome = true)) ∧
    (((index ad cy qy qr qd).plot_data.isSome = true ∨
      (index ad cy qy qr qd).results_data.isSome = true) →
        (∃ y, qy = some y ∧ y ≠ 0) ∧ (∃ r, qr = some r ∧ r ≠ "") ∧
        (∃ d, qd = some d ∧ d ≠ "")) ∧
    (∀ y r d races sess, qy = some y → y ≠ 0 → qr = some r → r ≠ "" →
      qd = some d → d ≠ "" → ad.schedule y = .ok races →
      ad.loadLight y r = .ok sess →
      ((d = "ALL" →
        (index ad cy qy qr qd).plot_data = none ∧
        (index ad cy qy qr qd).results_data = (get_race_results ad y r).1 ∧
        (index ad cy qy qr qd).error = (get_race_results ad y r).2) ∧
       (d ≠ "ALL" →
        (index ad cy qy qr qd).results_data = none ∧
        (index ad cy qy qr qd).plot_data = (create_dashboard ad y r d).1 ∧
        (index ad cy qy qr qd).error = (create_dashboard ad y r d).2) ∧
       ((index ad cy qy qr qd).error = none →
        ((index ad cy qy qr qd).plot_data.isSome = true ↔
         (index ad cy qy qr qd).results_data.isSome = false)))) := by
  refine ⟨?_, index_populated_truthy ad cy qy qr qd, ?_⟩
  · rcases index_at_most_one ad cy qy qr qd with h | h <;>
      rw [h] <;> simp
  · intro y r d races sess hqy hy hqr hr hqd hd h1 h2
    subst hqy
    subst hqr
    subst hqd
    refine ⟨?_, ?_, ?_⟩
    · intro hall
      subst hall
      rw [index_all ad cy y r races sess hy hr h1 h2]
      exact ⟨rfl, rfl, rfl⟩
    · intro hall
      rw [index_driver ad cy y r d races sess hy hr hd hall h1 h2]
      exact ⟨rfl, rfl, rfl⟩
    · intro herr
      by_cases hall : d = "ALL"
      · subst hall
        rw [index_all ad cy y r races sess hy hr h1 h2] at herr ⊢
        have hx : (get_race_results ad y r).1.isSome = true :=
          (get_race_results_exclusive ad y r).mpr herr
        simp [hx]
      · rw [index_driver ad cy y r d races sess hy hr hd hall h1 h2]
          at herr ⊢
        have hx : (create_dashboard ad y r d).1.isSome = true :=
          (create_dashboard_exclusive ad y r d).mpr herr
        simp [hx]

theorem index_dispatch_witness :
    (index adFull 2024 (some 2024) (some "Bahrain") (some "ALL")).plot_data =
      none ∧
    (index adFull 2024 (some 2024) (some "Bahrain") (some "ALL")).results_data
      = (get_race_results adFull 2024 "Bahrain").1 ∧
    (index adFull 2024 (some 2024) (some "Bahrain")
      (some "ALL")).results_data.isSome = true := by
  have h := (index_dispatch adFull 2024 (some 2024) (some "Bahrain")
    (some "ALL")).2.2 2024 "Bahrain" "ALL" ["Bahrain Grand Prix"]
    ⟨[], dfFull⟩ rfl (by decide) rfl (by decide) rfl (by decide) rfl rfl
  have ha := h.1 rfl
  refine ⟨ha.1, ha.2.1, ?_⟩
  rw [ha.2.1]
  decide

/-- C6: every adapter exception at any resolution stage is caught and
converted to a single error string, and the partial results resolved
before the failure (event list, driver list) are still returned: a
schedule failure yields only the error; a session-load failure keeps
the event list; a dashboard-load failure keeps both lists and reports
the wrapped builder error with a null image. -/
theorem index_adapter_failures (ad : Adapter) (cy y : Int) (r d : String)
    (hy : y ≠ 0) (hr : r ≠ "") (hd : d ≠ "") :
    (∀ e, ad.schedule y = .error e →
      index ad cy (some y) (some r) (some d) =
        ⟨yearsList cy, [], [], some y, some r, some d, none, none,
         some (routeErr e)⟩) ∧
    (∀ races e, ad.schedule y = .ok races → ad.loadLight y r = .error e →
      index ad cy (some y) (some r) (some d) =
        ⟨yearsList cy, races, [], some y, some r, some d, none, none,
         some (routeErr e)⟩) ∧
    (∀ races sess e, d ≠ "ALL" → ad.schedule y = .ok races →
      ad.loadLight y r = .ok sess → ad.loadFull y r = .error e →
      (index ad cy (some y) (some r) (some d)).races = races ∧
      (index ad cy (some y) (some r) (some d)).drivers =
        sortStr (uniqueList (sess.laps.map Lap.driver)) ∧
      (index ad cy (some y) (some r) (some d)).plot_data = none ∧
      (index ad cy (some y) (some r) (some d)).error =
        some ("An error occurred: " ++ e ++
          ". The driver may not have data for this session.")) := by
  refine ⟨?_, ?_, ?_⟩
  · intro e he
    exact index_schedule_error ad cy y (some r) (some d) e hy he
  · intro races e h1 h2
    exact index_load_error ad cy y r (some d) races e hy hr h1 h2
  · intro races sess e hall h1 h2 h3
    have hcd : create_dashboard ad y r d =
        (none, some ("An error occurred: " ++ e ++
          ". The driver may not have data for this session.")) := by
      simp only [create_dashboard, h3]
    rw [index_driver ad cy y r d races sess hy hr hd hall h1 h2]
    exact ⟨rfl, rfl, by rw [show (⟨yearsList cy, races,
      sortStr (uniqueList (sess.laps.map Lap.driver)), some y, some r,
      some d, (create_dashboard ad y r d).1, none,
      (create_dashboard ad y r d).2⟩ : ViewModel).plot_data =
        (create_dashboard ad y r d).1 from rfl, hcd],
      by rw [show (⟨yearsList cy, races,
      sortStr (uniqueList (sess.laps.map Lap.driver)), some y, some r,
      some d, (create_dashboard ad y r d).1, none,
      (create_dashboard ad y r d).2⟩ : ViewModel).error =
        (create_dashboard ad y r d).2 from rfl, hcd]⟩

theorem index_adapter_failures_witness :
    (index adFail 2024 (some 1) (some "R") (some "VER")).error =
      some (routeErr "boom") ∧
    (index adFail 2024 (some 1) (some "R") (some "VER")).races = [] ∧
    (index adFail 2024 (some 2) (some "R") (some "VER")).races =
      ["Bahrain Grand Prix"] ∧
    (index adFail 2024 (some 2) (some "R") (some "VER")).error =
      some (routeErr "net") ∧
    (index adFail 2024 (some 3) (some "R") (some "VER")).drivers = ["VER"] ∧
    (index adFail 2024 (some 3) (some "R") (some "VER")).plot_data = none ∧
    (index adFail 2024 (some 3) (some "R") (some "VER")).error =
      some "An error occurred: cache. The driver may not have data for this session." := by
  have h1 := (index_adapter_failures adFail 2024 1 "R" "VER" (by decide)
    (by decide) (by decide)).1 "boom" rfl
  have h2 := (index_adapter_failures adFail 2024 2 "R" "VER" (by decide)
    (by decide) (by decide)).2.1 ["Bahrain Grand Prix"] "net" rfl rfl
  have h3 := (index_adapter_failures adFail 2024 3 "R" "VER" (by decide)
    (by decide) (by decide)).2.2 ["Bahrain Grand Prix"]
    ⟨[⟨"VER", some 90000, []⟩], dfFull⟩ "cache" (by decide) rfl rfl rfl
  refine ⟨by rw [h1], by rw [h1], by rw [h2], by rw [h2],
    h3.2.1.trans (by decide), h3.2.2.1, h3.2.2.2.trans (by decide)⟩

/-- C7: with year and event given (and no driver), the resolver returns
the driver list as the sorted, duplicate-free set of driver identifiers
appearing in the session's lap records. -/
theorem drivers_list_sorted (ad : Adapter) (cy y : Int) (r : String)
    (races : List String) (sess : SessionData) (hy : y ≠ 0) (hr : r ≠ "")
    (h1 : ad.schedule y = .ok races) (h2 : ad.loadLight y r = .ok sess) :
    (index ad cy (some y) (some r) none).drivers.Sorted (· ≤ ·) ∧
    (index ad cy (some y) (some r) none).drivers.Nodup ∧
    ∀ s, s ∈ (index ad cy (some y) (some r) none).drivers ↔
      s ∈ sess.laps.map Lap.driver := by
  rw [index_drivers_only ad cy y r races sess hy hr h1 h2]
  exact sortedDrivers_props (sess.laps.map Lap.driver)

theorem drivers_list_sorted_witness :
    (index adC7 2024 (some 2024) (some "R") none).drivers.Sorted (· ≤ ·) ∧
    (index adC7 2024 (some 2024) (some "R") none).drivers.Nodup ∧
    ("HAM" ∈ (index adC7 2024 (some 2024) (some "R") none).drivers ↔
      "HAM" ∈ ([⟨"VER", some 90000, []⟩, ⟨"HAM", some 91000, []⟩,
        ⟨"VER", some 92000, []⟩] : List Lap).map Lap.driver) ∧
    (index adC7 2024 (some 2024) (some "R") none).drivers = ["HAM", "VER"] := by
  have h := drivers_list_sorted adC7 2024 2024 "R" []
    ⟨[⟨"VER", some 90000, []⟩, ⟨"HAM", some 91000, []⟩,
      ⟨"VER", some 92000, []⟩], ⟨[]⟩⟩ (by decide) (by decide) rfl rfl
  exact ⟨h.1, h.2.1, h.2.2 "HAM", by decide⟩

/-- C8: for every request the year list is the descending range from
the current year down to 2018 inclusive: it starts at the current year,
ends at 2018, is strictly descending, and contains exactly the years
between 2018 and the current year. -/
theorem years_list_range (ad : Adapter) (cy : Int) (qy : Option Int)
    (qr qd : Option String) (h : 2018 ≤ cy) :
    (index ad cy qy qr qd).years = yearsList cy ∧
    (∀ z : Int, z ∈ (index ad cy qy qr qd).years ↔ 2018 ≤ z ∧ z ≤ cy) ∧
    (index ad cy qy qr qd).years.Pairwise (· > ·) ∧
    (index ad cy qy qr qd).years.head? = some cy ∧
    (index ad cy qy qr qd).years.getLast? = some 2018 :=
  ⟨rfl, yearsList_mem cy h, yearsList_pairwise cy, yearsList_head cy h,
   yearsList_getLast cy h⟩

theorem years_list_range_witness :
    (2018 : Int) ≤ 2025 ∧
    (index trivAdapter 2025 none none none).years.head? = some 2025 ∧
    (index trivAdapter 2025 none none none).years.getLast? = some 2018 ∧
    ((2017 : Int) ∈ (index trivAdapter 2025 none none none).years ↔
      2018 ≤ (2017 : Int) ∧ (2017 : Int) ≤ 2025) := by
  have h := years_list_range trivAdapter 2025 none none none (by decide)
  exact ⟨by decide, h.2.2.2.1, h.2.2.2.2, h.2.1 2017⟩

/-- C10: a year query parameter that is present but not parseable as an
integer behaves exactly like an absent year: the whole template record
is the same, with empty event and driver lists, no payload, and no
error string. -/
theorem year_param_unparseable (ad : Adapter) (cy : Int) (s : String)
    (qr qd : Option String) (h : pyToInt s = none) :
    indexRaw ad cy (some s) qr qd = indexRaw ad cy none qr qd ∧
    (indexRaw ad cy (some s) qr qd).races = [] ∧
    (indexRaw ad cy (some s) qr qd).drivers = [] ∧
    (indexRaw ad cy (some s) qr qd).plot_data = none ∧
    (indexRaw ad cy (some s) qr qd).results_data = none ∧
    (indexRaw ad cy (some s) qr qd).error = none := by
  have hp : parseYearParam (some s) = none := by
    simp [parseYearParam, h]
  have hioned : indexRaw ad cy (some s) qr qd = index ad cy none qr qd := by
    unfold indexRaw
    rw [hp]
  have hnone : indexRaw ad cy none qr qd = index ad cy none qr qd := rfl
  rw [hioned, hnone]
  exact ⟨rfl, by rw [index_none], by rw [index_none], by rw [index_none],
    by rw [index_none], by rw [index_none]⟩

theorem year_param_unparseable_witness :
    pyToInt "abc" = none ∧
    indexRaw trivAdapter 2025 (some "abc") none none =
      indexRaw trivAdapter 2025 none none none ∧
    (indexRaw trivAdapter 2025 (some "abc") none none).races = [] ∧
    (indexRaw trivAdapter 2025 (some "abc") none none).error = none := by
  have h := year_param_unparseable trivAdapter 2025 "abc" none none
    (by decide)
  exact ⟨by decide, h.1, h.2.1, h.2.2.2.2.2⟩
